import Mathlib

/-!
Verification of the SVG2HTML full-conversion engine (`src/svg2html.py`)
against its natural-language specification.

The Python code is shallowly embedded: machine floats are modelled by
exact rationals (`ℚ`), Python strings by `String`/`List Char`, Python
dicts by insertion-ordered association lists, and calls into the
external `svgpathtools` library by an explicit oracle parameter.
Every definition is translated from the source file; modelling caveats
are recorded in the corresponding doc comments.
-/

set_option maxRecDepth 100000

namespace SVG2HTML

/-- Characters treated as whitespace by Python `str.strip()` / `str.split()`. -/
def isPySpace (c : Char) : Bool :=
  c = ' ' || c = '\t' || c = '\n' || c = '\x0d' || c = '\x0b' || c = '\x0c'

/-- Models Python `s.strip()`: drop leading and trailing whitespace. -/
def pyStrip (s : String) : String :=
  ⟨((s.data.dropWhile isPySpace).reverse.dropWhile isPySpace).reverse⟩

/-- Models Python `s.rstrip(c)` for a single-character class: drop every
trailing occurrence of `c`. -/
def pyRstrip (s : String) (c : Char) : String :=
  ⟨(s.data.reverse.dropWhile (· = c)).reverse⟩

/-- Decides whether the first list is a leading segment of the second. -/
def leadsEq : List Char → List Char → Bool
  | [], _ => true
  | _ :: _, [] => false
  | a :: as, b :: bs => a = b && leadsEq as bs

/-- Decides whether `needle` occurs as a contiguous substring of `hay`;
models Python's `needle in hay` on strings. -/
def hasSub (needle : List Char) : List Char → Bool
  | [] => leadsEq needle []
  | c :: t => leadsEq needle (c :: t) || hasSub needle t

/-- String-level wrapper for `hasSub`. -/
def strIn (needle hay : String) : Bool :=
  hasSub needle.data hay.data

/-- Models Python `s.split()` (no argument): split on runs of whitespace,
producing no empty tokens. -/
def splitWs (s : String) : List String :=
  go s.data [] []
where
  go : List Char → List Char → List String → List String
    | [], cur, acc =>
        (if cur.isEmpty then acc else acc ++ [⟨cur.reverse⟩])
    | c :: t, cur, acc =>
        if isPySpace c then
          go t [] (if cur.isEmpty then acc else acc ++ [⟨cur.reverse⟩])
        else
          go t (c :: cur) acc

/-- Splits a list at the first occurrence of `sep`, returning the parts
before and after it; `none` when `sep` is absent.  Models Python
`s.split(sep, 1)` restricted to single-character separators. -/
def splitFirst (sep : Char) : List Char → Option (List Char × List Char)
  | [] => none
  | c :: t =>
      if c = sep then some ([], t)
      else match splitFirst sep t with
        | some (a, b) => some (c :: a, b)
        | none => none

/-- Models Python `s.split(',')`: all comma-separated fields, keeping
empty fields. -/
def splitAll (sep : Char) (l : List Char) : List String :=
  go l []
where
  go : List Char → List Char → List String
    | [], cur => [⟨cur.reverse⟩]
    | c :: t, cur =>
        if c = sep then ⟨cur.reverse⟩ :: go t []
        else go t (c :: cur)

/-- Left-pads a numeral string with `'0'` up to width `w`. -/
def padZeros (s : String) (w : ℕ) : String :=
  ⟨List.replicate (w - s.length) '0'⟩ ++ s

/-- Floor of a rational as an integer, computed by floor division of the
numerator by the (positive) denominator. -/
def qfloor (q : ℚ) : ℤ :=
  Int.fdiv q.num q.den

/-- Rounds a rational to the nearest integer, ties to the even integer;
models the rounding used by Python `format(v, '.Nf')` and `round(v, n)`
on exactly representable values. -/
def roundHalfEven (q : ℚ) : ℤ :=
  let f : ℤ := qfloor q
  let r : ℚ := q - f
  if r < 1 / 2 then f
  else if 1 / 2 < r then f + 1
  else if f % 2 = 0 then f else f + 1

/-- Fixed-point rendering of a nonnegative rational with exactly `prec`
digits after the dot (no dot when `prec = 0`), rounding half to even. -/
def pyFormatFixedNonneg (prec : ℕ) (q : ℚ) : String :=
  let n : ℕ := (roundHalfEven (q * (10 : ℚ) ^ prec)).toNat
  let ip : ℕ := n / 10 ^ prec
  let fp : ℕ := n % 10 ^ prec
  if prec = 0 then toString ip
  else toString ip ++ "." ++ padZeros (toString fp) prec

/-- Models Python `format(value, '.Nf')` on a rational.  Python rounds
the binary64 value; this model rounds the exact rational, which agrees
on the exactly representable inputs used throughout this development. -/
def pyFormatFixed (prec : ℕ) (q : ℚ) : String :=
  if q < 0 then "-" ++ pyFormatFixedNonneg prec (-q)
  else pyFormatFixedNonneg prec q

/-- Embeds `SVG2HTML._fmt` (src/svg2html.py:823):
`format(value, f'.{precision}f').rstrip('0').rstrip('.')`. -/
def fmt (prec : ℕ) (q : ℚ) : String :=
  pyRstrip (pyRstrip (pyFormatFixed prec q) '0') '.'

/-- Numeric value of a digit list, most significant first. -/
def digitsVal (l : List Char) : ℕ :=
  l.foldl (fun a c => a * 10 + (c.toNat - 48)) 0

/-- Parses the body of a Python float literal (after the optional sign):
`digits [. digits]` or `. digits`, then an optional exponent part,
requiring the whole list to be consumed.  Returns the exact value. -/
def parseFloatBody (l : List Char) : Option ℚ :=
  let d1 := l.takeWhile (·.isDigit)
  let r1 := l.dropWhile (·.isDigit)
  match r1 with
  | '.' :: r2 =>
      let d2 := r2.takeWhile (·.isDigit)
      let r3 := r2.dropWhile (·.isDigit)
      if d1.isEmpty && d2.isEmpty then none
      else
        let base : ℚ := (digitsVal d1 : ℚ) + (digitsVal d2 : ℚ) / (10 : ℚ) ^ d2.length
        parseExpTail base r3
  | _ =>
      if d1.isEmpty then none
      else parseExpTail (digitsVal d1 : ℚ) r1
where
  /-- Optional `e`/`E` exponent, then end of input. -/
  parseExpTail (base : ℚ) : List Char → Option ℚ
    | [] => some base
    | e :: r =>
        if e = 'e' || e = 'E' then
          let (neg, r') : Bool × List Char :=
            match r with
            | '+' :: r2 => (false, r2)
            | '-' :: r2 => (true, r2)
            | _ => (false, r)
          let d := r'.takeWhile (·.isDigit)
          let rest := r'.dropWhile (·.isDigit)
          if d.isEmpty || !rest.isEmpty then none
          else if neg then some (base / (10 : ℚ) ^ digitsVal d)
          else some (base * (10 : ℚ) ^ digitsVal d)
        else none

/-- Models Python `float(s)` on ordinary decimal literals: strips
surrounding whitespace, reads an optional sign, then a decimal body with
optional exponent.  `inf`, `nan` and underscore separators are outside
the modelled domain. -/
def parseFloat (s : String) : Option ℚ :=
  match (pyStrip s).data with
  | '+' :: t => parseFloatBody t
  | '-' :: t => (parseFloatBody t).map (fun q => -q)
  | t => parseFloatBody t

/-- Models `re.sub(r'[a-z%]+$', '', value)` from `SVG2HTML._get_float_attr`
(src/svg2html.py:804): remove the maximal trailing run of lowercase
letters and percent signs. -/
def stripUnits (s : String) : String :=
  ⟨(s.data.reverse.dropWhile (fun c => ('a' ≤ c && c ≤ 'z') || c = '%')).reverse⟩

/-- An SVG element as seen by the converter: a tag name together with its
attribute mapping (`element.get` on a BeautifulSoup tag). -/
structure Elem where
  tag : String
  attrs : List (String × String)
deriving DecidableEq, Repr

/-- Models `element.get(name)`: `none` when the attribute is absent. -/
def Elem.attr? (e : Elem) (k : String) : Option String :=
  (e.attrs.find? (fun p => p.1 = k)).map (·.2)

/-- Models `element.get(name, default)`. -/
def Elem.attrD (e : Elem) (k d : String) : String :=
  (e.attr? k).getD d

/-- Embeds `SVG2HTML._get_float_attr` (src/svg2html.py:789): fetch the
attribute, strip a trailing unit suffix, convert with `float`, and fall
back to the default on a missing attribute or a conversion error. -/
def getFloatAttr (e : Elem) (k : String) (d : ℚ) : ℚ :=
  match e.attr? k with
  | none => d
  | some v => (parseFloat (stripUnits v)).getD d

/-- Embeds `SVG2HTML._get_text_height` (src/svg2html.py:809):
`font-size × 1.2`. -/
def getTextHeight (e : Elem) : ℚ :=
  getFloatAttr e "font-size" 16 * (6 / 5)

/-- Models Python `round(q, n)`: round to `n` decimal places, ties to
even.  Python rounds the binary64 value; this model rounds the exact
rational. -/
def roundN (n : ℕ) (q : ℚ) : ℚ :=
  (roundHalfEven (q * (10 : ℚ) ^ n) : ℚ) / (10 : ℚ) ^ n

/-- The literal `1.5707963267948966` used by `SVG2HTML._atan2`. -/
def halfPiLit : ℚ := 15707963267948966 / 10 ^ 16

/-- Embeds `SVG2HTML._atan2` (src/svg2html.py:835).  Despite its name and
docstring, the Python function returns `round(y / x, 8)` — the raw
slope, not an arctangent — whenever `x ≠ 0`, and `±1.5707963267948966`
when `x = 0`. -/
def atan2M (y x : ℚ) : ℚ :=
  if x = 0 then (if y > 0 then halfPiLit else -halfPiLit)
  else roundN 8 (y / x)

/-- The literal `3.14159` the converter uses in place of π. -/
def pi5 : ℚ := 314159 / 100000

/-- Models Python's float modulo `a % b` for `b > 0`:
`a - b * floor (a / b)`, always in `[0, b)`. -/
def qmod (a b : ℚ) : ℚ :=
  a - b * qfloor (a / b)

/-- Embeds `SVG2HTML._calculate_angle` (src/svg2html.py:1096): percent
signs are stripped from the endpoint strings, the angle is taken from
`_atan2`, converted with `(90 - rad * 180 / 3.14159) % 360`, and
rendered with `f"{angle_deg:.1f}deg"`.  A `float()` failure would raise
in Python and is outside the modelled domain. -/
def calculateAngle (x1 y1 x2 y2 : String) : String :=
  let toVal (s : String) : ℚ :=
    if strIn "%" s then (parseFloat (pyRstrip s '%')).getD 0
    else (parseFloat s).getD 0
  let rad := atan2M (toVal y2 - toVal y1) (toVal x2 - toVal x1)
  let deg := qmod (90 - rad * 180 / pi5) 360
  pyFormatFixed 1 deg ++ "deg"

/-- Embeds `SVG2HTML._convert_svg_style_to_css` (src/svg2html.py:676):
a static lookup table applied to its whole argument, returning the
argument itself on a miss. -/
def convertSvgStyleToCss (s : String) : String :=
  if s = "fill" then "background-color"
  else if s = "fill-opacity" then "opacity"
  else if s = "stroke" then "border-color"
  else if s = "stroke-width" then "border-width"
  else if s = "stroke-opacity" then "border-opacity"
  else if s = "font-family" then "font-family"
  else if s = "font-size" then "font-size"
  else if s = "text-anchor" then "text-align"
  else s

/-- Index of the last occurrence of `c` in `l`, if any. -/
def lastIdxOf (c : Char) (l : List Char) : Option ℕ :=
  (l.reverse.findIdx? (· = c)).map (fun i => l.length - 1 - i)

/-- Matches the argument part of `rotate\(([^,]+)(?:,([^,]+),([^)]+))?\)`
starting right after a literal `rotate(`.  The regex first tries the
greedy three-argument form (groups split at the commas, closed by `)`),
and otherwise backtracks the first group to the last `)` before the
first comma. -/
def tryRotateArgs (rest : List Char) : Option (String × Option (String × String)) :=
  let triple : Option (String × String × String) :=
    match rest.findIdx? (· = ',') with
    | none => none
    | some p =>
        if p = 0 then none
        else
          let g1 := rest.take p
          let r := rest.drop (p + 1)
          match r.findIdx? (· = ',') with
          | none => none
          | some p2 =>
              if p2 = 0 then none
              else
                let g2 := r.take p2
                let r2 := r.drop (p2 + 1)
                let g3 := r2.takeWhile (· ≠ ')')
                if g3.isEmpty then none
                else match r2.drop g3.length with
                  | ')' :: _ => some (⟨g1⟩, ⟨g2⟩, ⟨g3⟩)
                  | _ => none
  match triple with
  | some (a, b, c) => some (a, some (b, c))
  | none =>
      let limit := (rest.findIdx? (· = ',')).getD rest.length
      match lastIdxOf ')' (rest.take limit) with
      | some k => if 1 ≤ k then some (⟨rest.take k⟩, none) else none
      | none => none

/-- Matches the argument part of `translate\(([^,]+)(?:,([^)]+))?\)` (and
of the identical `scale` pattern) starting right after the opening
literal. -/
def tryPairArgs (rest : List Char) : Option (String × Option String) :=
  let pair : Option (String × String) :=
    match rest.findIdx? (· = ',') with
    | none => none
    | some p =>
        if p = 0 then none
        else
          let g1 := rest.take p
          let r := rest.drop (p + 1)
          let g2 := r.takeWhile (· ≠ ')')
          if g2.isEmpty then none
          else match r.drop g2.length with
            | ')' :: _ => some (⟨g1⟩, ⟨g2⟩)
            | _ => none
  match pair with
  | some (a, b) => some (a, some b)
  | none =>
      let limit := (rest.findIdx? (· = ',')).getD rest.length
      match lastIdxOf ')' (rest.take limit) with
      | some k => if 1 ≤ k then some (⟨rest.take k⟩, none) else none
      | none => none

/-- Models `re.search` for the rotate pattern: try each occurrence of the
literal `rotate(` from the left, keeping the first successful match. -/
def scanRotate : List Char → Option (String × Option (String × String))
  | [] => none
  | c :: t =>
      if leadsEq "rotate(".data (c :: t) then
        match tryRotateArgs (t.drop 6) with
        | some r => some r
        | none => scanRotate t
      else scanRotate t

/-- Models `re.search` for the translate pattern. -/
def scanTranslate : List Char → Option (String × Option String)
  | [] => none
  | c :: t =>
      if leadsEq "translate(".data (c :: t) then
        match tryPairArgs (t.drop 9) with
        | some r => some r
        | none => scanTranslate t
      else scanTranslate t

/-- Models `re.search` for the scale pattern. -/
def scanScale : List Char → Option (String × Option String)
  | [] => none
  | c :: t =>
      if leadsEq "scale(".data (c :: t) then
        match tryPairArgs (t.drop 5) with
        | some r => some r
        | none => scanScale t
      else scanScale t

/-- Embeds `SVG2HTML._convert_svg_transform_to_css` (src/svg2html.py:700):
dispatch on a substring test, rebuild the CSS string from the captured
groups, and return the input unchanged when nothing matches. -/
def convertSvgTransformToCss (t : String) : String :=
  if strIn "rotate" t then
    match scanRotate t.data with
    | some (a, some (cx, cy)) =>
        "rotate(" ++ a ++ "deg) translate(" ++ cx ++ "px, " ++ cy ++
          "px) rotate(-" ++ a ++ "deg) translate(-" ++ cx ++ "px, -" ++ cy ++ "px)"
    | some (a, none) => "rotate(" ++ a ++ "deg)"
    | none => t
  else if strIn "translate" t then
    match scanTranslate t.data with
    | some (tx, ty?) => "translate(" ++ tx ++ "px, " ++ ty?.getD "0" ++ "px)"
    | none => t
  else if strIn "scale" t then
    match scanScale t.data with
    | some (sx, sy?) => "scale(" ++ sx ++ ", " ++ sy?.getD sx ++ ")"
    | none => t
  else t

/-- Matches one numeric token `[+-]?\d*\.?\d+` at the head of the list,
returning its exact value and the remaining characters.  The greedy
match with backtracking reduces to: integer digits, then a fractional
part only when the dot is followed by at least one digit. -/
def matchNum (l : List Char) : Option (ℚ × List Char) :=
  match l with
  | '+' :: t => matchNumBody t
  | '-' :: t => (matchNumBody t).map (fun r => (-r.1, r.2))
  | t => matchNumBody t
where
  matchNumBody (l : List Char) : Option (ℚ × List Char) :=
    let d1 := l.takeWhile (·.isDigit)
    let r1 := l.dropWhile (·.isDigit)
    match r1 with
    | '.' :: r2 =>
        let d2 := r2.takeWhile (·.isDigit)
        if d2.isEmpty then
          if d1.isEmpty then none
          else some ((digitsVal d1 : ℚ), r1)
        else
          some ((digitsVal d1 : ℚ) + (digitsVal d2 : ℚ) / (10 : ℚ) ^ d2.length,
                r2.dropWhile (·.isDigit))
    | _ =>
        if d1.isEmpty then none else some ((digitsVal d1 : ℚ), r1)

/-- Matches one coordinate pair of the fallback regex
`([+-]?\d*\.?\d+)[,\s]([+-]?\d*\.?\d+)`: a number, a single comma or
whitespace character, and a second number. -/
def matchPair (l : List Char) : Option ((ℚ × ℚ) × List Char) :=
  match matchNum l with
  | none => none
  | some (n1, r1) =>
      match r1 with
      | [] => none
      | c :: r2 =>
          if c = ',' || isPySpace c then
            match matchNum r2 with
            | none => none
            | some (n2, r3) => some ((n1, n2), r3)
          else none

/-- Fuel-driven scan implementing `re.findall` for the coordinate-pair
pattern: try a match at each position, consume the match on success,
advance one character on failure. -/
def scanPairs : ℕ → List Char → List (ℚ × ℚ)
  | 0, _ => []
  | _ + 1, [] => []
  | f + 1, c :: t =>
      match matchPair (c :: t) with
      | some (p, rest) => p :: scanPairs f rest
      | none => scanPairs f t

/-- All coordinate pairs the fallback regex extracts from a raw path
string (src/svg2html.py:768). -/
def findCoordPairs (s : String) : List (ℚ × ℚ) :=
  scanPairs s.data.length s.data

/-- Models Python `min` over a nonempty list (callers guard emptiness). -/
def minList : List ℚ → ℚ
  | [] => 0
  | x :: xs => xs.foldl min x

/-- Models Python `max` over a nonempty list (callers guard emptiness). -/
def maxList : List ℚ → ℚ
  | [] => 0
  | x :: xs => xs.foldl max x

/-- Outcome of the external `svgpathtools.parse_path(...).bbox()` call,
which is not part of this repository: a bounding-box tuple, an empty
parsed path (falsy, so the code falls through), an
`ImportError`/`ValueError`/`IndexError` caught by the inner handler, or
any other exception caught by the outer handler. -/
inductive ExtOutcome where
  | box (b : ℚ × ℚ × ℚ × ℚ)
  | emptyPath
  | softFail
  | hardFail
deriving DecidableEq, Repr

/-- Embeds `SVG2HTML._calculate_path_bounds` (src/svg2html.py:739).  The
external library call is the oracle `ext`; the code takes a returned
tuple verbatim as `(min_x, min_y, max_x, max_y)`.  On a library failure
the regex fallback pairs numeric tokens and folds min/max; with no pairs
it returns `none`, and the outer exception handler yields the default
box `(0, 0, 100, 100)`. -/
def calculatePathBounds (ext : String → ExtOutcome) (d : String) :
    Option (ℚ × ℚ × ℚ × ℚ) :=
  match ext d with
  | .box b => some b
  | .hardFail => some (0, 0, 100, 100)
  | _ =>
      match findCoordPairs d with
      | [] => none
      | pts =>
          some (minList (pts.map Prod.fst), minList (pts.map Prod.snd),
                maxList (pts.map Prod.fst), maxList (pts.map Prod.snd))

/-- Embeds the point parsing shared by the polyline/polygon branches
(src/svg2html.py:414): whitespace-separated tokens, keeping those with a
comma that split into exactly two floats. -/
def parsePoints (s : String) : List (ℚ × ℚ) :=
  (splitWs s).filterMap (fun tok =>
    if strIn "," tok then
      match splitAll ',' tok.data with
      | [a, b] =>
          match parseFloat a, parseFloat b with
          | some x, some y => some (x, y)
          | _, _ => none
      | _ => none
    else none)

/-- Embeds the polygon clip-path normalization (src/svg2html.py:440 and
its duplicate at 613): each point is scaled to percentages of the
bounding box, with a degenerate axis emitting `0`. -/
def relativePoints (prec : ℕ) (pl : List (ℚ × ℚ)) : List String :=
  let mnx := minList (pl.map Prod.fst)
  let mny := minList (pl.map Prod.snd)
  let mxx := maxList (pl.map Prod.fst)
  let mxy := maxList (pl.map Prod.snd)
  pl.map (fun p =>
    let rx : ℚ := if mxx > mnx then (p.1 - mnx) / (mxx - mnx) * 100 else 0
    let ry : ℚ := if mxy > mny then (p.2 - mny) / (mxy - mny) * 100 else 0
    fmt prec rx ++ "% " ++ fmt prec ry ++ "%")

/-- Fuel-driven Newton iteration for the integer square root: one step
replaces the guess `g` by `(g + n / g) / 2` and stops once the guess no
longer decreases. -/
def isqrtGo : ℕ → ℕ → ℕ → ℕ
  | 0, _, g => g
  | f + 1, n, g =>
      let g2 := (g + n / g) / 2
      if g2 < g then isqrtGo f n g2 else g

/-- Floor integer square root computed by Newton iteration. -/
def isqrt (n : ℕ) : ℕ :=
  if n = 0 then 0 else isqrtGo n n n

/-- Models Python `x ** 0.5` on a nonnegative rational.  The value is
exact when numerator and denominator are perfect squares (the only
inputs this development evaluates it on); otherwise the integer square
root of the scaled numerator gives a stand-in approximation. -/
def sqrtQ (q : ℚ) : ℚ :=
  (isqrt q.num.toNat : ℚ) / (isqrt q.den : ℚ)

/-- Renders the rational that Python would interpolate as a float into an
f-string: integers print as `n.0` the way `repr` of a whole float does;
other values print as an exact fraction (Python would print a binary64
approximation instead — only the value, not its spelling, is used by
the theorems below). -/
def qToStr (q : ℚ) : String :=
  if q.den = 1 then toString q.num ++ ".0"
  else toString q.num ++ "/" ++ toString q.den

/-- Embeds the shape-dispatched part of `SVG2HTML._extract_element_style`
(src/svg2html.py:347-498): the geometry and shape-specific declarations
for each supported tag.  Unsupported tags contribute nothing.  The
function's `vb_width`, `vb_height`, `svg_width`, `svg_height` parameters
are unused by the Python body and omitted here. -/
def geomDecls (ext : String → ExtOutcome) (prec : ℕ) (e : Elem)
    (tagName : String) (minx miny : ℚ) : List String :=
  if tagName = "rect" then
    let x := getFloatAttr e "x" 0
    let y := getFloatAttr e "y" 0
    let w := getFloatAttr e "width" 0
    let h := getFloatAttr e "height" 0
    let rx := getFloatAttr e "rx" 0
    let ry := getFloatAttr e "ry" rx
    ["left: " ++ fmt prec (x - minx) ++ "px",
     "top: " ++ fmt prec (y - miny) ++ "px",
     "width: " ++ fmt prec w ++ "px",
     "height: " ++ fmt prec h ++ "px"] ++
    (if rx > 0 || ry > 0 then
      [if rx = ry then "border-radius: " ++ fmt prec rx ++ "px"
       else "border-radius: " ++ fmt prec rx ++ "px " ++ fmt prec ry ++ "px"]
     else [])
  else if tagName = "circle" then
    let cx := getFloatAttr e "cx" 0
    let cy := getFloatAttr e "cy" 0
    let r := getFloatAttr e "r" 0
    ["left: " ++ fmt prec (cx - r - minx) ++ "px",
     "top: " ++ fmt prec (cy - r - miny) ++ "px",
     "width: " ++ fmt prec (r * 2) ++ "px",
     "height: " ++ fmt prec (r * 2) ++ "px",
     "border-radius: 50%"]
  else if tagName = "ellipse" then
    let cx := getFloatAttr e "cx" 0
    let cy := getFloatAttr e "cy" 0
    let rx := getFloatAttr e "rx" 0
    let ry := getFloatAttr e "ry" 0
    ["left: " ++ fmt prec (cx - rx - minx) ++ "px",
     "top: " ++ fmt prec (cy - ry - miny) ++ "px",
     "width: " ++ fmt prec (rx * 2) ++ "px",
     "height: " ++ fmt prec (ry * 2) ++ "px",
     "border-radius: 50%"]
  else if tagName = "line" then
    let x1 := getFloatAttr e "x1" 0
    let y1 := getFloatAttr e "y1" 0
    let x2 := getFloatAttr e "x2" 0
    let y2 := getFloatAttr e "y2" 0
    let length := sqrtQ ((x2 - x1) * (x2 - x1) + (y2 - y1) * (y2 - y1))
    let angle := atan2M (y2 - y1) (x2 - x1) * 180 / pi5
    ["left: " ++ fmt prec (x1 - minx) ++ "px",
     "top: " ++ fmt prec (y1 - miny) ++ "px",
     "width: " ++ fmt prec length ++ "px",
     "height: 0",
     "transform: rotate(" ++ qToStr angle ++ "deg)",
     "transform-origin: 0 0"]
  else if tagName = "polyline" || tagName = "polygon" then
    let pl := parsePoints (e.attrD "points" "")
    match pl with
    | [] => []
    | _ =>
        let mnx := minList (pl.map Prod.fst)
        let mny := minList (pl.map Prod.snd)
        let mxx := maxList (pl.map Prod.fst)
        let mxy := maxList (pl.map Prod.snd)
        ["left: " ++ fmt prec (mnx - minx) ++ "px",
         "top: " ++ fmt prec (mny - miny) ++ "px",
         "width: " ++ fmt prec (mxx - mnx) ++ "px",
         "height: " ++ fmt prec (mxy - mny) ++ "px"] ++
        (if tagName = "polygon" then
          ["clip-path: polygon(" ++
             String.intercalate ", " (relativePoints prec pl) ++ ")"]
         else []) ++
        (if tagName = "polyline" then
          let adjusted := pl.map (fun p =>
            fmt prec (p.1 - mnx) ++ "," ++ fmt prec (p.2 - mny))
          ["--polyline-points: \x27" ++ String.intercalate " " adjusted ++ "\x27",
           "--polyline-stroke: \x27" ++ e.attrD "stroke" "black" ++ "\x27",
           "--polyline-stroke-width: \x27" ++ e.attrD "stroke-width" "1" ++ "\x27"]
         else [])
  else if tagName = "path" then
    let d := e.attrD "d" ""
    match calculatePathBounds ext d with
    | none => []
    | some (a, b, c, dmax) =>
        ["left: " ++ fmt prec (a - minx) ++ "px",
         "top: " ++ fmt prec (b - miny) ++ "px",
         "width: " ++ fmt prec (c - a) ++ "px",
         "height: " ++ fmt prec (dmax - b) ++ "px",
         "--path-data: \x27" ++ d ++ "\x27"]
  else if tagName = "text" then
    let x := getFloatAttr e "x" 0
    let y := getFloatAttr e "y" 0
    let th := getTextHeight e
    ["left: " ++ fmt prec (x - minx) ++ "px",
     "top: " ++ fmt prec (y - miny - th) ++ "px",
     "font-family: " ++ e.attrD "font-family" "sans-serif",
     "font-size: " ++ e.attrD "font-size" "16"]
  else []

/-- Embeds the tag-independent tail of `SVG2HTML._extract_element_style`
(src/svg2html.py:500-524): fill, stroke, inline style and transform
handling.  Both arms of the Python `url(#` test append the same
`background-color` declaration, so they are embedded as one. -/
def commonDecls (e : Elem) : List String :=
  (match e.attr? "fill" with
   | none => []
   | some f =>
       if f ≠ "" && f ≠ "none" then ["background-color: " ++ f]
       else if f = "none" then ["background-color: transparent"]
       else []) ++
  (match e.attr? "stroke" with
   | none => []
   | some st =>
       if st ≠ "" && st ≠ "none" then
         ["border: " ++ e.attrD "stroke-width" "1" ++ "px solid " ++ st]
       else []) ++
  (let sa := e.attrD "style" ""
   if sa ≠ "" then [convertSvgStyleToCss sa] else []) ++
  (let tr := e.attrD "transform" ""
   if tr ≠ "" then [convertSvgTransformToCss tr] else [])

/-- Embeds `SVG2HTML._extract_element_style` (src/svg2html.py:331): the
shape declarations followed by the generic ones.  The Python function
returns them joined with `'; '`; the list form is kept, with the join a
separate step, because the caller immediately re-splits the string. -/
def extractElementStyle (ext : String → ExtOutcome) (prec : ℕ) (e : Elem)
    (tagName : String) (minx miny : ℚ) : List String :=
  geomDecls ext prec e tagName minx miny ++ commonDecls e

/-- Ordered association list standing for a Python dict of CSS
properties. -/
abbrev Props := List (String × String)

/-- Ordered association list standing for the `element_styles` dict:
selector → property dict. -/
abbrev Styles := List (String × Props)

/-- Dict upsert with Python semantics: an existing key keeps its
position and gets the new value; a new key is appended. -/
def dictUpsert {α : Type} (l : List (String × α)) (k : String) (v : α) :
    List (String × α) :=
  if (l.find? (fun p => p.1 = k)).isSome then
    l.map (fun p => if p.1 = k then (k, v) else p)
  else l ++ [(k, v)]

/-- Models `dict.get` on a property dict. -/
def propGet (props : Props) (k : String) : Option String :=
  (props.find? (fun p => p.1 = k)).map (·.2)

/-- Models `element_styles[sel]` (the selector is always present when the
code indexes). -/
def stylesGet (styles : Styles) (sel : String) : Props :=
  ((styles.find? (fun p => p.1 = sel)).map (·.2)).getD []

/-- Embeds `SVG2HTML._parse_css_properties` (src/svg2html.py:850): split
on `';'`, skip blank parts, split each remaining part at the first
`':'` and strip both sides. -/
def parseCssProperties (s : String) : Props :=
  (splitAll ';' s.data).foldl
    (fun acc p =>
      if pyStrip p = "" then acc
      else match splitFirst ':' p.data with
        | some (k, v) => dictUpsert acc (pyStrip ⟨k⟩) (pyStrip ⟨v⟩)
        | none => acc)
    []

/-- Convenience composition used by `_convert_svg_to_html_full`
(src/svg2html.py:279): the extracted declaration string parsed back into
a property dict. -/
def elementStyleProps (ext : String → ExtOutcome) (prec : ℕ) (e : Elem)
    (tagName : String) (minx miny : ℚ) : Props :=
  parseCssProperties
    (String.intercalate "; " (extractElementStyle ext prec e tagName minx miny))

/-- Adds a selector to its group bucket, preserving first-insertion
order of keys (Python dict of lists). -/
def bucketAdd (bk : List (String × List String)) (key sel : String) :
    List (String × List String) :=
  if (bk.find? (fun p => p.1 = key)).isSome then
    bk.map (fun p => if p.1 = key then (p.1, p.2 ++ [sel]) else p)
  else bk ++ [(key, [sel])]

/-- Embeds the grouping loop of `SVG2HTML._optimize_css`
(src/svg2html.py:890-899): a selector joins a bucket only when it
contains `'-'` and `'element'`, splits on `'-'` into at least two parts,
and its first part contains `'element'`; the bucket key is the second
part. -/
def groupSelectors (styles : Styles) : List (String × List String) :=
  styles.foldl
    (fun bk p =>
      let sel := p.1
      if strIn "-" sel && strIn "element" sel then
        match splitAll '-' sel.data with
        | p0 :: p1 :: _ => if strIn "element" p0 then bucketAdd bk p1 sel else bk
        | _ => bk
      else bk)
    []

/-- Embeds `SVG2HTML._optimize_css` (src/svg2html.py:871): group
selectors, intersect the property dicts of each group of at least two,
strip the common properties from the instance dicts, and merge the
synthetic `[data-type='…']` dicts into the result with `dict.update`
(new keys are appended after all existing ones). -/
def optimizeCss (styles : Styles) : Styles :=
  let step := fun (acc : Styles × Styles) (b : String × List String) =>
    if b.2.length < 2 then acc
    else
      match b.2 with
      | [] => acc
      | first :: _ =>
          let firstProps := stylesGet styles first
          let commonProps := firstProps.filter
            (fun pv => b.2.all (fun sel => propGet (stylesGet styles sel) pv.1 = some pv.2))
          if commonProps.isEmpty then acc
          else
            let opt := acc.1.map (fun sp =>
              if b.2.contains sp.1 then
                (sp.1, sp.2.filter (fun pv =>
                  (commonProps.find? (fun cp => cp.1 = pv.1)).isNone))
              else sp)
            (opt, acc.2 ++ [("[data-type=\x27" ++ b.1 ++ "\x27]", commonProps)])
  let r := (groupSelectors styles).foldl step (styles, ([] : Styles))
  r.2.foldl (fun acc kv => dictUpsert acc kv.1 kv.2) r.1

/-- Embeds the stylesheet emission loop of
`SVG2HTML._convert_svg_to_html_full` (src/svg2html.py:290-300): one rule
per selector with nonempty properties, in dict order; selectors starting
with `'['` are prefixed with `.svg-element`, bare ones with `'.'`. -/
def buildCssRules (optimized : Styles) : List String :=
  optimized.foldl
    (fun acc sp =>
      if sp.2.isEmpty then acc
      else
        let body := String.intercalate "; " (sp.2.map (fun pv => pv.1 ++ ": " ++ pv.2))
        let rule :=
          if sp.1.startsWith "." then sp.1 ++ " \x7b " ++ body ++ " \x7d"
          else if sp.1.startsWith "[" then
            ".svg-element" ++ sp.1 ++ " \x7b " ++ body ++ " \x7d"
          else "." ++ sp.1 ++ " \x7b " ++ body ++ " \x7d"
        acc ++ [rule])
    []

/-- The fixed head emitted by `SVG2HTML._convert_svg_to_html_embed`
(src/svg2html.py:161-169). -/
def htmlHeaderEmbed : String :=
  "<!DOCTYPE html>\n<html lang=\"zh-CN\">\n<head>\n" ++
  "  <meta charset=\"UTF-8\">\n" ++
  "  <meta name=\"viewport\" content=\"width=device-width, initial-scale=1.0\">\n" ++
  "  <title>SVG转换HTML</title>\n" ++
  "  <style>\n" ++
  "    body, html \x7b margin: 0; padding: 0; overflow: hidden; \x7d\n" ++
  "    .svg-container \x7b width: 100%; height: 100%; \x7d\n" ++
  "  </style>\n" ++
  "</head>\n<body>\n"

/-- Embeds `SVG2HTML._convert_svg_to_html_embed` (src/svg2html.py:137):
the external markup parser's root lookup is the oracle `findSvg`; a
missing `<svg>` tag raises `ValueError` with the fixed message, modelled
as a typed `Except.error` carrying that message. -/
def convertSvgToHtml (findSvg : String → Option Elem) (addWrapper : Bool)
    (content : String) : Except String String :=
  match findSvg content with
  | none => Except.error "无效的SVG文件：找不到<svg>标签"
  | some _ =>
      Except.ok
        (htmlHeaderEmbed ++
         (if addWrapper then "<div class=\"svg-container\">\n" else "") ++
         content ++
         (if addWrapper then "</div>\n" else "") ++
         "</body>\n</html>")

/-- Embeds `SVG2HTML.convert_file` (src/svg2html.py:50): any exception is
caught, a failure report naming the input is printed, and the function
returns a success flag.  The pair returned here is the flag together
with the failure report, if any. -/
def convertFile (findSvg : String → Option Elem) (addWrapper : Bool)
    (file : String × String) : Bool × Option String :=
  match convertSvgToHtml findSvg addWrapper file.2 with
  | Except.ok _ => (true, none)
  | Except.error e => (false, some ("转换失败 " ++ file.1 ++ ": " ++ e))

/-- One step of the directory-conversion tally: bump the success count
when `convert_file` returns True, the failure count otherwise. -/
def tallyStep (findSvg : String → Option Elem) (addWrapper : Bool)
    (acc : ℕ × ℕ) (f : String × String) : ℕ × ℕ :=
  if (convertFile findSvg addWrapper f).1 then (acc.1 + 1, acc.2)
  else (acc.1, acc.2 + 1)

/-- Embeds the counting loop of `SVG2HTML.convert_directory`
(src/svg2html.py:96-117): each file is converted independently and the
success/failure tallies are returned. -/
def convertDirectory (findSvg : String → Option Elem) (addWrapper : Bool)
    (files : List (String × String)) : ℕ × ℕ :=
  files.foldl (tallyStep findSvg addWrapper) (0, 0)

/-- Rotation about the origin with the given cosine/sine, as a map on
points; the standard linear-map semantics of a CSS `rotate(…)` entry. -/
def rotApply (cosA sinA : ℚ) (p : ℚ × ℚ) : ℚ × ℚ :=
  (cosA * p.1 - sinA * p.2, sinA * p.1 + cosA * p.2)

/-- Translation by `t`, the semantics of a CSS `translate(…)` entry. -/
def transApply (t p : ℚ × ℚ) : ℚ × ℚ :=
  (p.1 + t.1, p.2 + t.2)

/-- Composed effect of the sequence the converter emits for a pivoted
rotation — `rotate(a) translate(c) rotate(-a) translate(-c)` — under
standard CSS transform-list semantics (the rightmost entry acts on the
point first). -/
def rotateSeqApply (cosA sinA : ℚ) (c p : ℚ × ℚ) : ℚ × ℚ :=
  rotApply cosA sinA
    (transApply c (rotApply cosA (-sinA) (transApply (-c.1, -c.2) p)))

/-- Rotation by the given angle about the pivot `c`: the semantics the
source format gives `rotate(a, cx, cy)`. -/
def pivotRotApply (cosA sinA : ℚ) (c p : ℚ × ℚ) : ℚ × ℚ :=
  transApply c (rotApply cosA sinA (transApply (-c.1, -c.2) p))

/-- Oracle standing for an external path parser whose parse attempt
raises (the malformed-input case): the code then takes its regex
fallback. -/
def extNone : String → ExtOutcome := fun _ => ExtOutcome.softFail

/-- The rectangle of the specification's worked example:
x=10, y=20, width=30, height=40, rx=5, ry=5. -/
def rect8 : Elem :=
  ⟨"rect", [("x", "10"), ("y", "20"), ("width", "30"), ("height", "40"),
            ("rx", "5"), ("ry", "5")]⟩

/-- First of two red rectangles differing only in position. -/
def rectA : Elem :=
  ⟨"rect", [("x", "0"), ("y", "0"), ("width", "30"), ("height", "40"),
            ("fill", "red")]⟩

/-- Second of two red rectangles differing only in position. -/
def rectB : Elem :=
  ⟨"rect", [("x", "50"), ("y", "0"), ("width", "30"), ("height", "40"),
            ("fill", "red")]⟩

/-- The `element_styles` dict a full conversion builds for a document
holding exactly the two red rectangles, with the generated class names
`svg-element-1` and `svg-element-2` (src/svg2html.py:267,279). -/
def stylesTwoRects : Styles :=
  [("svg-element-1", elementStyleProps extNone 2 rectA "rect" 0 0),
   ("svg-element-2", elementStyleProps extNone 2 rectB "rect" 0 0)]

/-- A styles dict whose selectors do satisfy the optimizer's grouping
guard (first dash-part contains `element`), exhibiting where the
`dict.update` merge places a synthetic shared rule. -/
def stylesGuard : Styles :=
  [("element-k-1", [("background-color", "red"), ("left", "1px")]),
   ("element-k-2", [("background-color", "red"), ("left", "2px")])]

/-- An exactly horizontal line (y1 = y2 = 10) with stroke width 4: the
probe input for the claimed horizontal fast path. -/
def lineC4 : Elem :=
  ⟨"line", [("x1", "0"), ("y1", "10"), ("x2", "100"), ("y2", "10"),
            ("stroke-width", "4")]⟩

/-- A 3-4-5 line used as a concrete witness input. -/
def lineD : Elem :=
  ⟨"line", [("x1", "0"), ("y1", "0"), ("x2", "3"), ("y2", "4")]⟩

/-- A degenerate polygon whose single point makes both bounding-box axes
zero length. -/
def polyDeg : Elem := ⟨"polygon", [("points", "5,7")]⟩

/-- Oracle standing for the markup parser's drawing-root lookup: only the
content `"good"` has an `<svg>` root. -/
def findSvg0 : String → Option Elem :=
  fun s => if s = "good" then some ⟨"svg", []⟩ else none

/-- A batch with a failing document between two convertible ones. -/
def files9 : List (String × String) :=
  [("a.svg", "good"), ("b.svg", "bad"), ("c.svg", "good")]

/-- Leading part of the batch, before the failing document. -/
def pre9 : List (String × String) := [("a.svg", "good")]

/-- Trailing part of the batch, from the failing document on. -/
def post9 : List (String × String) := [("b.svg", "bad"), ("c.svg", "good")]

/-!
Theorems settling the claims.
-/

/-- C1.  For the document holding exactly two rectangles that share
`fill: red` and differ only in position, the optimization pass emits no
shared rule at all: the grouping guard (`'element' in parts[0]`) never
holds for the generated class names `svg-element-N`, so `_optimize_css`
returns its input unchanged — no `[data-type='rect']` rule appears and
both instance rules keep `background-color: red`, contradicting the
claim (and the optimizer's own docstring). -/
theorem optimize_css_never_shares_for_two_red_rects :
    optimizeCss stylesTwoRects = stylesTwoRects ∧
    propGet (stylesGet (optimizeCss stylesTwoRects) "svg-element-1")
      "background-color" = some "red" ∧
    propGet (stylesGet (optimizeCss stylesTwoRects) "svg-element-2")
      "background-color" = some "red" ∧
    (optimizeCss stylesTwoRects).find? (fun sp => sp.1.startsWith "[") = none := by
  with_unfolding_all decide

/-- C2.  The stylesheet built for the two-red-rectangle document
contains only the two instance rules (no shared rule exists to order);
and on a styles dict whose selectors do pass the grouping guard, the
`dict.update` merge appends the synthetic `[data-type='k']` rule after
every instance rule, so the emission loop writes the shared rule last —
the opposite of the claimed shared-before-instance ordering. -/
theorem shared_rule_emitted_after_instance_rules :
    buildCssRules (optimizeCss stylesTwoRects) =
      [".svg-element-1 \x7b left: 0px; top: 0px; width: 30px; height: 40px; background-color: red \x7d",
       ".svg-element-2 \x7b left: 50px; top: 0px; width: 30px; height: 40px; background-color: red \x7d"] ∧
    buildCssRules (optimizeCss stylesGuard) =
      [".element-k-1 \x7b left: 1px \x7d",
       ".element-k-2 \x7b left: 2px \x7d",
       ".svg-element[data-type=\x27k\x27] \x7b background-color: red \x7d"] := by
  with_unfolding_all decide

/-- C3.  The formatter's `rstrip('0')` also strips significant trailing
zeros of the integer part once precision 0 leaves no decimal dot:
`10.0` formats to `"1"` and `0.0` to `""`, while the claim's own example
`5.0 → "5"` happens to survive. -/
theorem fmt_precision_zero_drops_integer_zeros :
    fmt 0 10 = "1" ∧ fmt 0 0 = "" ∧ fmt 0 5 = "5" ∧ fmt 2 10 = "10" := by
  with_unfolding_all decide

/-- C4 counterexample.  For the exactly horizontal line
(0,10)–(100,10) with stroke width 4, extraction emits `height: 0` (and
no `height: 4px` anywhere), so the claimed horizontal fast path does not
exist; and for a 45° direction the rotation argument is
`round(dy/dx, 8)·180/3.14159 ≈ 57.3`, not the `atan2` value 45, so the
claimed angle formula fails as well. -/
theorem line_has_no_fast_paths :
    extractElementStyle extNone 2 lineC4 "line" 0 0 =
      ["left: 0px", "top: 10px", "width: 100px", "height: 0",
       "transform: rotate(0.0deg)", "transform-origin: 0 0"] ∧
    "height: 4px" ∉ extractElementStyle extNone 2 lineC4 "line" 0 0 ∧
    atan2M 1 1 * 180 / pi5 ≠ 45 := by
  with_unfolding_all decide

/-- C5.  For the gradient running from (0%,0%) to (100%,100%) the code
resolves the angle to `32.7deg`: `_atan2` returns the slope `1.0`, not
`atan2(100,100) = π/4`, so `(90 − 1·180/3.14159) mod 360 ≈ 32.7`
replaces the claimed `(90 − 45) mod 360 = 45.0`. -/
theorem calculate_angle_uses_slope_not_atan2 :
    calculateAngle "0%" "0%" "100%" "100%" = "32.7deg" ∧
    calculateAngle "0%" "0%" "100%" "100%" ≠ "45.0deg" := by
  with_unfolding_all decide

/-- C6.  `rotate(90,10,0)` is rewritten to the sequence
`rotate(90deg) translate(10px, 0px) rotate(-90deg) translate(-10px, -0px)`,
but under CSS transform-list semantics that sequence is a pure
translation: it sends the origin to (−10, 10), whereas rotation by 90°
about the pivot (10, 0) sends it to (10, −10) — the emitted sequence
does not realize the pivot semantics the claim asserts (the correct
decomposition would be translate→rotate→translate). -/
theorem rotate_pivot_sequence_is_not_a_pivot_rotation :
    convertSvgTransformToCss "rotate(90,10,0)" =
      "rotate(90deg) translate(10px, 0px) rotate(-90deg) translate(-10px, -0px)" ∧
    rotateSeqApply 0 1 (10, 0) (0, 0) = (-10, 10) ∧
    pivotRotApply 0 1 (10, 0) (0, 0) = (10, -10) ∧
    rotateSeqApply 0 1 (10, 0) (0, 0) ≠ pivotRotApply 0 1 (10, 0) (0, 0) := by
  with_unfolding_all decide

/-- C8.  The specification's worked rectangle example: x=10, y=20,
width=30, height=40, rx=ry=5 at viewBox origin (0,0) extracts to exactly
the five claimed declarations, with a single `border-radius` value
because the radii agree. -/
theorem rect_example_extracts_exactly :
    extractElementStyle extNone 2 rect8 "rect" 0 0 =
      ["left: 10px", "top: 20px", "width: 30px", "height: 40px",
       "border-radius: 5px"] := by
  with_unfolding_all decide

/-- C4 amended.  For every line element (with no fill/stroke/style/
transform attributes), extraction always emits the same six
declarations: anchor at the first endpoint minus the viewBox origin,
width the Euclidean length, `height: 0`, and a rotation with
`transform-origin: 0 0` whose angle is `_atan2(dy,dx)·180/3.14159`
degrees, where `_atan2` returns `round(dy/dx, 8)` (or ±1.5707963267948966
when dx = 0) — there is no horizontal or vertical fast path and the
height never tracks the stroke width. -/
theorem line_extraction_always_rotated_bar
    (ext : String → ExtOutcome) (prec : ℕ) (e : Elem)
    (minx miny x1 y1 x2 y2 : ℚ)
    (h1 : getFloatAttr e "x1" 0 = x1) (h2 : getFloatAttr e "y1" 0 = y1)
    (h3 : getFloatAttr e "x2" 0 = x2) (h4 : getFloatAttr e "y2" 0 = y2)
    (hf : e.attr? "fill" = none) (hs : e.attr? "stroke" = none)
    (hsty : e.attr? "style" = none) (htr : e.attr? "transform" = none) :
    extractElementStyle ext prec e "line" minx miny =
      ["left: " ++ fmt prec (x1 - minx) ++ "px",
       "top: " ++ fmt prec (y1 - miny) ++ "px",
       "width: " ++ fmt prec (sqrtQ ((x2 - x1) * (x2 - x1) + (y2 - y1) * (y2 - y1))) ++ "px",
       "height: 0",
       "transform: rotate(" ++ qToStr (atan2M (y2 - y1) (x2 - x1) * 180 / pi5) ++ "deg)",
       "transform-origin: 0 0"] := by
  simp [extractElementStyle, geomDecls, commonDecls, Elem.attrD,
        h1, h2, h3, h4, hf, hs, hsty, htr]

/-- C4 witness: the 3-4-5 line instantiates the amended line-extraction
theorem; its hypotheses hold for `lineD` by computation. -/
theorem line_extraction_always_rotated_bar_witness :
    (getFloatAttr lineD "x1" 0 = 0 ∧ getFloatAttr lineD "y1" 0 = 0 ∧
     getFloatAttr lineD "x2" 0 = 3 ∧ getFloatAttr lineD "y2" 0 = 4 ∧
     lineD.attr? "fill" = none ∧ lineD.attr? "stroke" = none ∧
     lineD.attr? "style" = none ∧ lineD.attr? "transform" = none) ∧
    extractElementStyle extNone 2 lineD "line" 0 0 =
      ["left: " ++ fmt 2 ((0 : ℚ) - 0) ++ "px",
       "top: " ++ fmt 2 ((0 : ℚ) - 0) ++ "px",
       "width: " ++ fmt 2 (sqrtQ (((3 : ℚ) - 0) * ((3 : ℚ) - 0) + ((4 : ℚ) - 0) * ((4 : ℚ) - 0))) ++ "px",
       "height: 0",
       "transform: rotate(" ++ qToStr (atan2M ((4 : ℚ) - 0) ((3 : ℚ) - 0) * 180 / pi5) ++ "deg)",
       "transform-origin: 0 0"] :=
  ⟨by with_unfolding_all decide,
   line_extraction_always_rotated_bar extNone 2 lineD 0 0 0 0 3 4
     (by with_unfolding_all decide) (by with_unfolding_all decide)
     (by with_unfolding_all decide) (by with_unfolding_all decide)
     (by with_unfolding_all decide) (by with_unfolding_all decide)
     (by with_unfolding_all decide) (by with_unfolding_all decide)⟩

/-- Folding `min` from a smaller seed stays below folding `max` from a
larger seed. -/
theorem foldl_min_le_foldl_max (l : List ℚ) :
    ∀ a b : ℚ, a ≤ b → l.foldl min a ≤ l.foldl max b := by
  induction l with
  | nil => intro a b h; simpa using h
  | cons x xs ih =>
      intro a b h
      simp only [List.foldl_cons]
      exact ih (min a x) (max b x)
        (le_trans (min_le_left a x) (le_trans h (le_max_left b x)))

/-- The guarded Python `min` never exceeds the guarded Python `max` on
the same nonempty list. -/
theorem minList_le_maxList (l : List ℚ) (h : l ≠ []) :
    minList l ≤ maxList l := by
  cases l with
  | nil => exact absurd rfl h
  | cons x xs => exact foldl_min_le_foldl_max xs x x le_rfl

/-- C7.  The path-bounds computation is a total function (the Python
code catches every exception), and whenever it returns a box the box has
nonnegative width and height: the regex fallback folds min/max over the
same point list, the outer default box is (0,0,100,100), and the
external library's branch passes its tuple through under the ordering
the code assumes of it. -/
theorem path_bounds_box_has_nonneg_extent
    (ext : String → ExtOutcome) (s : String) (b : ℚ × ℚ × ℚ × ℚ)
    (hext : ∀ bb, ext s = ExtOutcome.box bb → bb.1 ≤ bb.2.2.1 ∧ bb.2.1 ≤ bb.2.2.2)
    (hres : calculatePathBounds ext s = some b) :
    0 ≤ b.2.2.1 - b.1 ∧ 0 ≤ b.2.2.2 - b.2.1 := by
  cases hx : ext s with
  | box bb =>
      simp only [calculatePathBounds, hx, Option.some.injEq] at hres
      obtain ⟨h1, h2⟩ := hext bb hx
      subst hres
      exact ⟨by linarith, by linarith⟩
  | hardFail =>
      simp only [calculatePathBounds, hx, Option.some.injEq] at hres
      subst hres
      norm_num
  | emptyPath =>
      simp only [calculatePathBounds, hx] at hres
      cases hp : findCoordPairs s with
      | nil => rw [hp] at hres; exact absurd hres (by simp)
      | cons p ps =>
          rw [hp] at hres
          simp only [Option.some.injEq] at hres
          subst hres
          refine ⟨sub_nonneg.mpr ?_, sub_nonneg.mpr ?_⟩ <;>
            exact minList_le_maxList _ (by simp)
  | softFail =>
      simp only [calculatePathBounds, hx] at hres
      cases hp : findCoordPairs s with
      | nil => rw [hp] at hres; exact absurd hres (by simp)
      | cons p ps =>
          rw [hp] at hres
          simp only [Option.some.injEq] at hres
          subst hres
          refine ⟨sub_nonneg.mpr ?_, sub_nonneg.mpr ?_⟩ <;>
            exact minList_le_maxList _ (by simp)

/-- C7 witness: for the truncated path data `M 10 20 L 30 4.` with a
failing external parser, the fallback returns the box (10, 4, 30, 20),
whose extents the theorem certifies as nonnegative. -/
theorem path_bounds_box_has_nonneg_extent_witness :
    calculatePathBounds extNone "M 10 20 L 30 4." = some (10, 4, 30, 20) ∧
    (0 ≤ (30 : ℚ) - 10 ∧ 0 ≤ (20 : ℚ) - 4) :=
  ⟨by with_unfolding_all decide,
   path_bounds_box_has_nonneg_extent extNone "M 10 20 L 30 4." (10, 4, 30, 20)
     (fun bb h => absurd h (by simp [extNone]))
     (by with_unfolding_all decide)⟩

/-- Shifting the fold accumulator of the directory-conversion tally is
additive: counting from `a` equals `a` plus the counts from zero. -/
theorem tallyStep_foldl_shift (findSvg : String → Option Elem) (aw : Bool) :
    ∀ (fs : List (String × String)) (a : ℕ × ℕ),
      fs.foldl (tallyStep findSvg aw) a =
      (a.1 + (fs.foldl (tallyStep findSvg aw) (0, 0)).1,
       a.2 + (fs.foldl (tallyStep findSvg aw) (0, 0)).2) := by
  intro fs
  induction fs with
  | nil => intro a; simp
  | cons f fs ih =>
      intro a
      rw [List.foldl_cons, List.foldl_cons, ih (tallyStep findSvg aw a f),
          ih (tallyStep findSvg aw (0, 0) f)]
      by_cases h : (convertFile findSvg aw f).1 <;>
        simp [tallyStep, h, Prod.ext_iff] <;> omega

/-- C9.  A document without a drawing root converts to a typed error
carrying the fixed human-readable cause; `convert_file` catches it and
reports the failing input by name; and the batch tally covers every
input and decomposes over any split of the batch, so one failing
document never affects how its siblings are counted. -/
theorem rootless_document_fails_without_breaking_batch
    (findSvg : String → Option Elem) (aw : Bool)
    (files pre post : List (String × String)) (name content : String)
    (hbad : findSvg content = none) :
    convertSvgToHtml findSvg aw content =
      Except.error "无效的SVG文件：找不到<svg>标签" ∧
    convertFile findSvg aw (name, content) =
      (false, some ("转换失败 " ++ name ++ ": " ++ "无效的SVG文件：找不到<svg>标签")) ∧
    (convertDirectory findSvg aw files).1 + (convertDirectory findSvg aw files).2 =
      files.length ∧
    convertDirectory findSvg aw (pre ++ post) =
      ((convertDirectory findSvg aw pre).1 + (convertDirectory findSvg aw post).1,
       (convertDirectory findSvg aw pre).2 + (convertDirectory findSvg aw post).2) := by
  refine ⟨by simp [convertSvgToHtml, hbad], by simp [convertFile, convertSvgToHtml, hbad], ?_, ?_⟩
  · induction files with
    | nil => simp [convertDirectory]
    | cons f fs ih =>
        simp only [convertDirectory, List.foldl_cons] at *
        rw [tallyStep_foldl_shift findSvg aw fs (tallyStep findSvg aw (0, 0) f)]
        by_cases h : (convertFile findSvg aw f).1 <;>
          simp [tallyStep, h] at ih ⊢ <;> omega
  · simp only [convertDirectory, List.foldl_append]
    rw [tallyStep_foldl_shift findSvg aw post]

/-- C9 witness: the three-document batch with `b.svg` failing
instantiates the batch theorem; one success on each side of the failure,
a (2, 1) tally overall. -/
theorem rootless_document_fails_without_breaking_batch_witness :
    findSvg0 "bad" = none ∧
    (convertSvgToHtml findSvg0 true "bad" =
       Except.error "无效的SVG文件：找不到<svg>标签" ∧
     convertFile findSvg0 true ("b.svg", "bad") =
       (false, some ("转换失败 " ++ "b.svg" ++ ": " ++ "无效的SVG文件：找不到<svg>标签")) ∧
     (convertDirectory findSvg0 true files9).1 +
       (convertDirectory findSvg0 true files9).2 = files9.length ∧
     convertDirectory findSvg0 true (pre9 ++ post9) =
       ((convertDirectory findSvg0 true pre9).1 + (convertDirectory findSvg0 true post9).1,
        (convertDirectory findSvg0 true pre9).2 + (convertDirectory findSvg0 true post9).2)) :=
  ⟨by with_unfolding_all decide,
   rootless_document_fails_without_breaking_batch findSvg0 true files9 pre9 post9
     "b.svg" "bad" (by with_unfolding_all decide)⟩

/-- String concatenation is associative. -/
theorem strAppend_assoc (a b c : String) : a ++ b ++ c = a ++ (b ++ c) := by
  cases a; cases b; cases c
  apply congrArg String.mk
  exact List.append_assoc _ _ _

/-- The character list of a concatenation is the concatenation of the
character lists. -/
theorem strData_append (s t : String) : (s ++ t).data = s.data ++ t.data := by
  cases s; cases t; rfl

/-- Dropping a satisfying prefix run passes over any replicate of a
satisfying character. -/
theorem dropWhile_replicate_of_pos (p : Char → Bool) (c : Char)
    (hp : p c = true) (n : ℕ) (l : List Char) :
    List.dropWhile p (List.replicate n c ++ l) = List.dropWhile p l := by
  induction n with
  | zero => simp
  | succ n ih => simp [List.replicate_succ, List.dropWhile_cons, hp, ih]

/-- Rounding zero returns zero. -/
theorem roundHalfEven_zero : roundHalfEven 0 = 0 := by
  with_unfolding_all decide

/-- The formatter renders zero as `"0"` at every positive precision (at
precision 0 the stripping bug of `_fmt` erases the digit instead). -/
theorem fmt_zero (prec : ℕ) (h : 1 ≤ prec) : fmt prec 0 = "0" := by
  have h0 : pyFormatFixed prec 0 =
      "0" ++ "." ++ (⟨List.replicate (prec - 1) '0'⟩ ++ "0") := by
    unfold pyFormatFixed pyFormatFixedNonneg
    rw [if_neg (lt_irrefl 0), zero_mul, roundHalfEven_zero]
    simp only [Int.toNat_zero, Nat.zero_div, Nat.zero_mod]
    rw [if_neg (by omega : ¬ prec = 0)]
    rfl
  have hdata : (pyFormatFixed prec 0).data =
      '0' :: '.' :: (List.replicate (prec - 1) '0' ++ ['0']) := by
    rw [h0]
    simp [strData_append]
  have hinner : pyRstrip (pyFormatFixed prec 0) '0' = "0." := by
    unfold pyRstrip
    rw [hdata]
    have : ('0' :: '.' :: (List.replicate (prec - 1) '0' ++ ['0'])).reverse =
        List.replicate prec '0' ++ ['.', '0'] := by
      simp only [List.reverse_cons, List.reverse_append, List.reverse_replicate,
                 List.reverse_singleton]
      have hp : prec - 1 + 1 = prec := by omega
      calc (['0'] ++ List.replicate (prec - 1) '0') ++ [('.' : Char)] ++ ['0']
          = List.replicate (prec - 1 + 1) '0' ++ (['.'] ++ ['0']) := by
            simp [List.replicate_succ, List.append_assoc]
        _ = List.replicate prec '0' ++ ['.', '0'] := by rw [hp]; rfl
    rw [this, dropWhile_replicate_of_pos _ _ (by decide)]
    rfl
  unfold fmt
  rw [hinner]
  with_unfolding_all decide

/-- Folding `min` over a constant list from the constant returns the
constant. -/
theorem foldl_min_of_const (c : ℚ) :
    ∀ l : List ℚ, (∀ x ∈ l, x = c) → List.foldl min c l = c := by
  intro l
  induction l with
  | nil => intro _; rfl
  | cons x xs ih =>
      intro h
      have hx : x = c := h x (by simp)
      subst hx
      simp only [List.foldl_cons, min_self]
      exact ih (fun y hy => h y (by simp [hy]))

/-- Folding `max` over a constant list from the constant returns the
constant. -/
theorem foldl_max_of_const (c : ℚ) :
    ∀ l : List ℚ, (∀ x ∈ l, x = c) → List.foldl max c l = c := by
  intro l
  induction l with
  | nil => intro _; rfl
  | cons x xs ih =>
      intro h
      have hx : x = c := h x (by simp)
      subst hx
      simp only [List.foldl_cons, max_self]
      exact ih (fun y hy => h y (by simp [hy]))

/-- The guarded Python `min` of a constant nonempty list is the
constant. -/
theorem minList_const (l : List ℚ) (c : ℚ) (hne : l ≠ [])
    (h : ∀ x ∈ l, x = c) : minList l = c := by
  cases l with
  | nil => exact absurd rfl hne
  | cons x xs =>
      have hx : x = c := h x (by simp)
      subst hx
      exact foldl_min_of_const x xs (fun y hy => h y (by simp [hy]))

/-- The guarded Python `max` of a constant nonempty list is the
constant. -/
theorem maxList_const (l : List ℚ) (c : ℚ) (hne : l ≠ [])
    (h : ∀ x ∈ l, x = c) : maxList l = c := by
  cases l with
  | nil => exact absurd rfl hne
  | cons x xs =>
      have hx : x = c := h x (by simp)
      subst hx
      exact foldl_max_of_const x xs (fun y hy => h y (by simp [hy]))

/-- C10.  A polygon whose points all share an x coordinate (or all share
a y coordinate) still extracts without any division: the degenerate
axis's guard `max > min` fails, so that axis's normalized clip-path
percentage is the literal `0` for every point (at any positive
precision), and the clip-path declaration is emitted among the
element's declarations. -/
theorem degenerate_polygon_axis_emits_zero
    (ext : String → ExtOutcome) (prec : ℕ) (e : Elem) (s : String)
    (pl : List (ℚ × ℚ)) (minx miny cx cy : ℚ)
    (hprec : 1 ≤ prec)
    (hattr : e.attrD "points" "" = s)
    (hparse : parsePoints s = pl)
    (hne : pl ≠ []) :
    ("clip-path: polygon(" ++
        String.intercalate ", " (relativePoints prec pl) ++ ")")
      ∈ extractElementStyle ext prec e "polygon" minx miny ∧
    ((∀ p ∈ pl, p.1 = cx) →
      ∀ rp ∈ relativePoints prec pl, ∃ t, rp = "0% " ++ t) ∧
    ((∀ p ∈ pl, p.2 = cy) →
      ∀ rp ∈ relativePoints prec pl, ∃ t, rp = t ++ "% 0%") := by
  refine ⟨?_, ?_, ?_⟩
  · cases pl with
    | nil => exact absurd rfl hne
    | cons p ps =>
        simp only [extractElementStyle, geomDecls, hattr, hparse]
        simp [List.mem_append]
  · intro hx rp hrp
    unfold relativePoints at hrp
    obtain ⟨q, hq, rfl⟩ := List.mem_map.mp hrp
    have hmapne : pl.map Prod.fst ≠ [] := by
      cases pl with
      | nil => exact absurd rfl hne
      | cons p ps => simp
    have hall : ∀ x ∈ pl.map Prod.fst, x = cx := by
      intro x hxm
      obtain ⟨q2, hq2, rfl⟩ := List.mem_map.mp hxm
      exact hx q2 hq2
    have hmin : minList (pl.map Prod.fst) = cx := minList_const _ _ hmapne hall
    have hmax : maxList (pl.map Prod.fst) = cx := maxList_const _ _ hmapne hall
    dsimp only
    rw [hmin, hmax, if_neg (lt_irrefl cx), fmt_zero prec hprec]
    refine ⟨fmt prec (if maxList (pl.map Prod.snd) > minList (pl.map Prod.snd)
      then (q.2 - minList (pl.map Prod.snd)) /
        (maxList (pl.map Prod.snd) - minList (pl.map Prod.snd)) * 100 else 0) ++ "%", ?_⟩
    rw [strAppend_assoc]
    rfl
  · intro hy rp hrp
    unfold relativePoints at hrp
    obtain ⟨q, hq, rfl⟩ := List.mem_map.mp hrp
    have hmapne : pl.map Prod.snd ≠ [] := by
      cases pl with
      | nil => exact absurd rfl hne
      | cons p ps => simp
    have hall : ∀ y ∈ pl.map Prod.snd, y = cy := by
      intro y hym
      obtain ⟨q2, hq2, rfl⟩ := List.mem_map.mp hym
      exact hy q2 hq2
    have hmin : minList (pl.map Prod.snd) = cy := minList_const _ _ hmapne hall
    have hmax : maxList (pl.map Prod.snd) = cy := maxList_const _ _ hmapne hall
    dsimp only
    rw [hmin, hmax, if_neg (lt_irrefl cy), fmt_zero prec hprec]
    refine ⟨fmt prec (if maxList (pl.map Prod.fst) > minList (pl.map Prod.fst)
      then (q.1 - minList (pl.map Prod.fst)) /
        (maxList (pl.map Prod.fst) - minList (pl.map Prod.fst)) * 100 else 0), ?_⟩
    rw [strAppend_assoc, strAppend_assoc]
    rfl

/-- C10 witness: the one-point polygon `points="5,7"` is degenerate on
both axes; its clip-path declaration is emitted and its single relative
point is zero on each axis. -/
theorem degenerate_polygon_axis_emits_zero_witness :
    ((1 : ℕ) ≤ 2 ∧ polyDeg.attrD "points" "" = "5,7" ∧
     parsePoints "5,7" = [((5 : ℚ), (7 : ℚ))] ∧
     ([((5 : ℚ), (7 : ℚ))] : List (ℚ × ℚ)) ≠ []) ∧
    (("clip-path: polygon(" ++
        String.intercalate ", " (relativePoints 2 [((5 : ℚ), (7 : ℚ))]) ++ ")")
      ∈ extractElementStyle extNone 2 polyDeg "polygon" 0 0 ∧
    ((∀ p ∈ ([((5 : ℚ), (7 : ℚ))] : List (ℚ × ℚ)), p.1 = 5) →
      ∀ rp ∈ relativePoints 2 [((5 : ℚ), (7 : ℚ))], ∃ t, rp = "0% " ++ t) ∧
    ((∀ p ∈ ([((5 : ℚ), (7 : ℚ))] : List (ℚ × ℚ)), p.2 = 7) →
      ∀ rp ∈ relativePoints 2 [((5 : ℚ), (7 : ℚ))], ∃ t, rp = t ++ "% 0%")) :=
  ⟨⟨by omega, by with_unfolding_all decide, by with_unfolding_all decide,
     by with_unfolding_all decide⟩,
   degenerate_polygon_axis_emits_zero extNone 2 polyDeg "5,7"
     [((5 : ℚ), (7 : ℚ))] 0 0 5 7 (by omega)
     (by with_unfolding_all decide) (by with_unfolding_all decide)
     (by with_unfolding_all decide)⟩

end SVG2HTML
